import Mathlib

/-!
Verification of the trade-note extractor (`tradeExtractor.js`) of the
traders-voice repository.

The extractor is a pure function built from JavaScript regular expressions.
All regexes in the source carry the `i` (case-insensitive) flag, so the
embedding maps the input text once to the list of upper-cased code points
(`upCodes`) and compiles every pattern with upper-cased literals; matching is
then exact comparison of code points.  The regex engine below is a
backtracking CPS matcher that reproduces the JavaScript semantics used by the
source: leftmost match, ordered alternation, greedy quantifiers, word
boundaries, capture groups, and negative lookahead.

JavaScript numbers that the extractor can ever produce are decimal numbers
with at most two fraction digits (every numeric capture group is
of the shape digits-and-commas with an optional 1-2 digit fraction), so
numeric values are embedded exactly as a count of hundredths ("cents"):
the JavaScript value v is represented by the natural number 100 * v.
-/

/-- Whitespace code points matched by the JavaScript regex class backslash-s
(for the ASCII range relevant here). -/
def isWsCode (c : Nat) : Bool :=
  c == 32 || c == 9 || c == 10 || c == 11 || c == 12 || c == 13

/-- Word code points for the JavaScript word-boundary assertion: letters,
digits and underscore.  The input is upper-cased, lower-case letters do not
occur. -/
def isWordCode (c : Nat) : Bool :=
  (48 ≤ c && c ≤ 57) || (65 ≤ c && c ≤ 90) || (97 ≤ c && c ≤ 122) || c == 95

/-- Digit code points 0-9. -/
def isDigitCode (c : Nat) : Bool := 48 ≤ c && c ≤ 57

/-- Regular expressions, in the fragment the extractor uses. -/
inductive Rx where
  /-- the empty regex -/
  | eps : Rx
  /-- a single code point satisfying the predicate -/
  | cls (p : Nat → Bool) : Rx
  /-- concatenation -/
  | cat (r1 r2 : Rx) : Rx
  /-- ordered alternation (left alternative preferred, as in JavaScript) -/
  | alt (r1 r2 : Rx) : Rx
  /-- greedy Kleene star -/
  | star (r : Rx) : Rx
  /-- capture group with the given 1-based index -/
  | grp (i : Nat) (r : Rx) : Rx
  /-- word boundary assertion -/
  | wordB : Rx
  /-- negative lookahead -/
  | nla (r : Rx) : Rx

/-- Matcher state: current position, the code point just before it (for word
boundaries), the remaining input, and the captures recorded so far (most
recent first, as JavaScript keeps the last value a group captured). -/
structure MSt where
  pos : Nat
  prev : Option Nat
  rest : List Nat
  caps : List (Nat × List Nat)

/-- Backtracking CPS matcher.  `rxMt fuel r st k` tries all ways `r` can match
at `st` in JavaScript preference order (ordered alternation, greedy
quantifiers) and runs the continuation `k` on each until one succeeds.
`fuel` bounds the recursion depth; it is chosen large enough by the callers
(every star iteration consumes at least one code point). -/
def rxMt : Nat → Rx → MSt → (MSt → Option MSt) → Option MSt
  | 0, _, _, _ => none
  | _ + 1, .eps, st, k => k st
  | _ + 1, .cls p, st, k =>
    match st.rest with
    | [] => none
    | c :: tl => if p c then k ⟨st.pos + 1, some c, tl, st.caps⟩ else none
  | fuel + 1, .cat r1 r2, st, k => rxMt fuel r1 st (fun st1 => rxMt fuel r2 st1 k)
  | fuel + 1, .alt r1 r2, st, k =>
    match rxMt fuel r1 st k with
    | some m => some m
    | none => rxMt fuel r2 st k
  | fuel + 1, .star r1, st, k =>
    match rxMt fuel r1 st
        (fun st1 => if st.pos < st1.pos then rxMt fuel (.star r1) st1 k else none) with
    | some m => some m
    | none => k st
  | fuel + 1, .grp i r1, st, k =>
    rxMt fuel r1 st
      (fun st1 => k ⟨st1.pos, st1.prev, st1.rest,
        (i, st.rest.take (st1.pos - st.pos)) :: st1.caps⟩)
  | _ + 1, .wordB, st, k =>
    let before := match st.prev with | none => false | some c => isWordCode c
    let after := match st.rest with | [] => false | c :: _ => isWordCode c
    if before != after then k st else none
  | fuel + 1, .nla r1, st, k =>
    match rxMt fuel r1 st some with
    | some _ => none
    | none => k st

/-- Fuel bound for a single anchored match attempt. -/
def mtFuel (rest : List Nat) : Nat := 600 + 8 * rest.length

/-- Try an anchored match of `r` at the given state; first (JavaScript
preferred) result. -/
def mtAt (r : Rx) (pos : Nat) (prev : Option Nat) (rest : List Nat) : Option MSt :=
  rxMt (mtFuel rest) r ⟨pos, prev, rest, []⟩ some

/-- Unanchored search, as `String.prototype.match` without the `g` flag:
the match at the leftmost possible start position, together with that start
index. -/
def searchFrom (r : Rx) (pos : Nat) (prev : Option Nat) : List Nat → Option (Nat × MSt)
  | [] =>
    match mtAt r pos prev [] with
    | some st => some (pos, st)
    | none => none
  | c :: tl =>
    match mtAt r pos prev (c :: tl) with
    | some st => some (pos, st)
    | none => searchFrom r (pos + 1) (some c) tl

/-- JavaScript `text.match(re)`: leftmost match with its index and captures. -/
def jsExec (r : Rx) (codes : List Nat) : Option (Nat × MSt) := searchFrom r 0 none codes

/-- JavaScript `re.test(text)`. -/
def rxTest (r : Rx) (codes : List Nat) : Bool := (jsExec r codes).isSome

/-- Value of capture group `i` of a match (`match[i]`), `none` when the group
did not participate (JavaScript `undefined`). -/
def capGet (st : MSt) (i : Nat) : Option (List Nat) :=
  match st.caps.find? (fun p => p.1 == i) with
  | some p => some p.2
  | none => none

/-- JavaScript `text.replace(re, repl)` with the `g` flag: scan left to
right, replace every (leftmost, non-overlapping) match, keep scanning the
original text after each match.  `fuel` is the length of the remaining
input plus one. -/
def replaceScan (r : Rx) (repl : List Nat) :
    Nat → Nat → Option Nat → List Nat → List Nat
  | 0, _, _, rest => rest
  | fuel + 1, pos, prev, rest =>
    match mtAt r pos prev rest with
    | some st =>
      if st.pos > pos then
        repl ++ replaceScan r repl fuel st.pos st.prev st.rest
      else
        match rest with
        | [] => repl
        | c :: tl => repl ++ c :: replaceScan r repl fuel (pos + 1) (some c) tl
    | none =>
      match rest with
      | [] => []
      | c :: tl => c :: replaceScan r repl fuel (pos + 1) (some c) tl

/-- JavaScript global replace over a whole code-point list. -/
def rxReplaceAll (r : Rx) (repl codes : List Nat) : List Nat :=
  replaceScan r repl (codes.length + 1) 0 none codes

/-- Upper-cased code points of a string: the text every `i`-flagged regex of
the source is matched against. -/
def upCodes (s : String) : List Nat := s.data.map (fun c => c.toUpper.toNat)

/-- String from code points (used to materialise captured text and tickers;
all produced code points come from valid characters). -/
def strOfCodes (l : List Nat) : String := String.mk (l.map Char.ofNat)

/-- Substring of a code-point list: JavaScript `substring(start, stop)`. -/
def codesSub (codes : List Nat) (start stop : Nat) : List Nat :=
  (codes.drop start).take (stop - start)

/-- Is `pat` an initial run of `l`? -/
def codesPre : List Nat → List Nat → Bool
  | [], _ => true
  | _ :: _, [] => false
  | a :: tl, b :: tl2 => a == b && codesPre tl tl2

/-- Does `pat` occur as a contiguous run starting at some position of `l`? -/
def codesHasAux (pat : List Nat) : List Nat → Bool
  | [] => codesPre pat []
  | c :: tl => codesPre pat (c :: tl) || codesHasAux pat tl

/-- Does `pat` occur as a contiguous run inside `codes`
(JavaScript `includes`)? -/
def codesHas (codes pat : List Nat) : Bool := codesHasAux pat codes

-- Regex construction helpers ------------------------------------------------

/-- Single upper-cased literal code point (the `i` flag folds case). -/
def rxCh (c : Char) : Rx := .cls (fun x => x == c.toUpper.toNat)

/-- Literal string (each character case-folded). -/
def rxStr (s : String) : Rx :=
  s.data.foldr (fun c acc => .cat (rxCh c) acc) .eps

/-- Sequence of regexes. -/
def rxSeq (l : List Rx) : Rx := l.foldr .cat .eps

/-- Regex that never matches (empty alternation). -/
def rxFail : Rx := .cls (fun _ => false)

/-- Ordered alternation of a list of regexes. -/
def rxAlts (l : List Rx) : Rx :=
  match l with
  | [] => rxFail
  | [r] => r
  | r :: tl => .alt r (rxAlts tl)

/-- Ordered alternation of literal strings, as `(A|B|C)` in the source. -/
def rxStrAlts (l : List String) : Rx := rxAlts (l.map rxStr)

/-- Greedy option `r?`. -/
def rxOpt (r : Rx) : Rx := .alt r .eps

/-- Greedy plus `r+`. -/
def rxPlus (r : Rx) : Rx := .cat r (.star r)

/-- Greedy bounded repetition with lower bound 2 and upper bound 5, as the
`[A-Z]{2,5}` of the source's generic ticker patterns. -/
def rxRep25 (r : Rx) : Rx :=
  .cat r (.cat r (rxOpt (.cat r (rxOpt (.cat r (rxOpt r))))))

/-- Whitespace classes and common pieces. -/
def rxWs : Rx := .cls isWsCode

/-- zero or more whitespace -/
def rxWsS : Rx := .star rxWs

/-- one or more whitespace -/
def rxWsP : Rx := rxPlus rxWs

/-- a digit -/
def rxDigit : Rx := .cls isDigitCode

/-- one or more digits -/
def rxDigits : Rx := rxPlus rxDigit

/-- a digit or a comma, as the class digits-or-comma of the source -/
def rxDigCom : Rx := .cls (fun c => isDigitCode c || c == 44)

/-- one or more digits-or-commas -/
def rxDigComs : Rx := rxPlus rxDigCom

/-- optional dollar sign -/
def rxDollarOpt : Rx := rxOpt (rxCh '$')

/-- Numeric capture group `([\d,]+(\.\d{1,2})?)` with the given index. -/
def rxNumGrp (i : Nat) : Rx :=
  .grp i (.cat rxDigComs (rxOpt (rxSeq [rxCh '.', rxDigit, rxOpt rxDigit])))

/-- Upper-case letter (the `[A-Z]` class under the `i` flag on upper-cased
input). -/
def rxAZ : Rx := .cls (fun c => 65 ≤ c && c ≤ 90)

/-- Literal pattern compiled by `new RegExp(variant)` from a plain string:
every character is a case-folded literal except `.`, which JavaScript treats
as the any-character metaclass (not matching line terminators). -/
def rxLit (s : String) : Rx :=
  s.data.foldr
    (fun c acc =>
      if c == '.' then .cat (.cls (fun x => x != 10 && x != 13)) acc
      else .cat (rxCh c) acc)
    .eps

-- Static lookup tables of the source --------------------------------------

/-- Common words excluded from generic ticker detection. -/
def EXCLUDED_WORDS : List String :=
  ["AT", "THE", "AND", "FOR", "WITH", "USD", "USDT", "USDC", "EUR", "GBP",
   "BUY", "SELL", "LONG", "SHORT", "STOP", "LOSS", "TAKE", "PROFIT", "TARGET",
   "OPEN", "CLOSE", "SET", "PUT", "CALL", "GET", "TRADE", "TRADING",
   "PRICE", "SHARES", "CONTRACTS", "LOTS", "QUANTITY", "POSITION", "SIZE",
   "MEET", "MEAN", "REVERSION", "MARKET", "LIMIT", "ORDER"]

/-- Popular crypto pairs and tokens. -/
def CRYPTO_TOKENS : List String :=
  ["BTC", "ETH", "SOL", "XRP", "ADA", "DOGE", "DOT", "MATIC", "LINK", "AVAX",
   "UNI", "ATOM", "LTC", "BCH", "XLM", "ALGO", "VET", "FTM", "NEAR", "APT",
   "ARB", "OP", "INJ", "SUI", "SEI", "TIA", "PEPE", "SHIB", "BONK", "WIF",
   "BNB", "XMR"]

/-- Crypto name to ticker mapping (object entries in insertion order). -/
def CRYPTO_NAME_TO_TICKER : List (String × String) :=
  [("BITCOIN", "BTC"), ("ETHEREUM", "ETH"), ("SOLANA", "SOL"),
   ("CARDANO", "ADA"), ("DOGECOIN", "DOGE"), ("AVALANCHE", "AVAX"),
   ("POLKADOT", "DOT"), ("CHAINLINK", "LINK"), ("LITECOIN", "LTC"),
   ("MONERO", "XMR"), ("BINANCE COIN", "BNB"), ("BNB", "BNB"),
   ("RIPPLE", "XRP")]

/-- Spoken pair variants mapping to canonical form (insertion order). -/
def SPOKEN_PAIR_VARIANTS : List (String × String) :=
  [("BITCOIN TETHER", "BTC/USDT"), ("BTC USDT", "BTC/USDT"),
   ("ETHEREUM TETHER", "ETH/USDT"), ("ETHER TETHER", "ETH/USDT"),
   ("ETH USDT", "ETH/USDT"), ("EURO DOLLAR", "EUR/USD"),
   ("POUND DOLLAR", "GBP/USD"), ("STERLING DOLLAR", "GBP/USD"),
   ("DOLLAR YEN", "USD/JPY")]

/-- Known crypto exchanges. -/
def EXCHANGES : List String :=
  ["BINANCE", "COINBASE", "KRAKEN", "BYBIT", "OKX", "KUCOIN", "BITFINEX",
   "GEMINI", "HUOBI", "GATE.IO", "BITGET", "MEXC", "CRYPTO.COM"]

/-- Trading indicators, including common Whisper mishearings, in source
order. -/
def INDICATORS : List String :=
  ["RSI", "MACD", "MHCD", "MCD", "MAC D",
   "EMA", "SMA", "VWAP", "ATR", "BOLLINGER", "BOLLINGER BANDS",
   "STOCHASTIC", "FIBONACCI", "ICHIMOKU", "ADX", "CCI", "WILLIAMS"]

/-- Corrections for Whisper mishearings of indicator names. -/
def INDICATOR_CORRECTIONS : List (String × String) :=
  [("MHCD", "MACD"), ("MCD", "MACD"), ("MAC D", "MACD")]

/-- Common Whisper mishearings for stop loss, in source order. -/
def STOP_LOSS_VARIANTS : List String :=
  ["STOP LOSS", "STOPLOSS", "STOP-LOSS",
   "STOPPLERS", "STOPPERS", "STOP PLUS", "STOPPER",
   "SL", "S L", "S.L."]

/-- Timeframe variants, ordered from most specific to least specific. -/
def TIMEFRAME_VARIANTS : List (String × String) :=
  [("FIFTEEN MINUTES", "15m"), ("15 MINUTES", "15m"), ("15-MINUTE", "15m"),
   ("15M CHART", "15m"), ("FIVE MINUTES", "5m"), ("5 MINUTES", "5m"),
   ("5-MINUTE", "5m"), ("5M CHART", "5m"), ("ONE MINUTE", "1m"),
   ("1 MINUTE", "1m"), ("1-MINUTE", "1m"), ("1M CHART", "1m"),
   ("FOUR-HOUR", "4h"), ("4-HOUR", "4h"), ("FOUR HOUR", "4h"),
   ("FOUR HOURS", "4h"), ("4 HOUR", "4h"), ("4 HOURS", "4h"),
   ("4H CHART", "4h"), ("ONE-HOUR", "1h"), ("1-HOUR", "1h"),
   ("ONE HOUR", "1h"), ("1 HOUR", "1h"), ("1H CHART", "1h"),
   ("HOUR CHART", "1h"), ("HOURLY", "1h"), ("ONE DAY", "1D"),
   ("1 DAY", "1D"), ("1-DAY", "1D"), ("DAY CHART", "1D"), ("DAILY", "1D"),
   ("ONE WEEK", "1W"), ("1 WEEK", "1W"), ("1-WEEK", "1W"),
   ("WEEK CHART", "1W"), ("WEEKLY", "1W"), ("ONE MONTH", "1M"),
   ("1 MONTH", "1M"), ("MONTH CHART", "1M"), ("MONTHLY", "1M")]

/-- Common stock tickers. -/
def STOCK_TICKERS : List String :=
  ["AAPL", "GOOGL", "GOOG", "MSFT", "AMZN", "META", "TSLA", "NVDA", "AMD",
   "INTC", "NFLX", "DIS", "BA", "JPM", "GS", "V", "MA", "WMT", "HD", "NKE",
   "COST", "PEP", "KO", "MCD", "SBUX", "CVX", "XOM", "PFE", "JNJ", "UNH",
   "ABBV", "MRK", "LLY", "SPY", "QQQ", "IWM", "DIA", "VTI", "VOO", "ARKK",
   "XLF", "XLE", "XLK"]

-- Numeric parsing ----------------------------------------------------------

/-- Numeric value of a list of digit code points. -/
def digitsVal : List Nat → Nat → Nat
  | [], acc => acc
  | c :: tl, acc => digitsVal tl (acc * 10 + (c - 48))

/-- Fraction part of a parsed number, in hundredths: the captured fraction
has one or two digits (the regexes capture at most two). -/
def fracCents : List Nat → Nat
  | [] => 0
  | [d] => (d - 48) * 10
  | d1 :: d2 :: _ => (d1 - 48) * 10 + (d2 - 48)

/-- `parseNumber` of the source: strip the commas, then `parseFloat`; a
string with no leading digit yields `none` (NaN in the source).  The result
is in hundredths of the JavaScript value. -/
def parseNumber : Option (List Nat) → Option Nat
  | none => none
  | some cap =>
    let cleaned := cap.filter (fun c => c != 44)
    let intPart := cleaned.takeWhile isDigitCode
    let rest := cleaned.dropWhile isDigitCode
    if intPart.isEmpty then none
    else
      let frac := match rest with
        | 46 :: fr => fracCents (fr.takeWhile isDigitCode)
        | _ => 0
      some (digitsVal intPart 0 * 100 + frac)

/-- `parseInt(s, 10)` on an all-digits capture. -/
def parseIntCap : Option (List Nat) → Option Nat
  | none => none
  | some cap =>
    let ds := cap.takeWhile isDigitCode
    if ds.isEmpty then none else some (digitsVal ds 0)

-- Pattern definitions (one per regex literal of the source) ----------------

/-- Action buy cues. -/
def buyRx : Rx :=
  rxSeq [.wordB,
    .grp 1 (rxStrAlts ["BUY", "BUYING", "BOUGHT", "LONG", "GOING LONG",
      "OPEN LONG", "OPENING LONG"]), .wordB]

/-- Action sell cues. -/
def sellRx : Rx :=
  rxSeq [.wordB,
    .grp 1 (rxStrAlts ["SELL", "SELLING", "SOLD", "SHORT", "GOING SHORT",
      "OPEN SHORT", "OPENING SHORT", "CLOSE", "CLOSING"]), .wordB]

/-- Whole-word indicator pattern. -/
def indicatorRx (ind : String) : Rx := rxSeq [.wordB, rxStr ind, .wordB]

/-- Leverage patterns, in source order. -/
def leveragePatterns : List Rx :=
  [rxSeq [.grp 1 rxDigits, rxCh 'X', rxWsS, rxStr "LEVERAGE"],
   rxSeq [rxStr "LEVERAGE", rxWsS, rxOpt (rxSeq [rxStr "OF", rxWsS]),
     .grp 1 rxDigits, rxOpt (rxCh 'X')],
   rxSeq [.wordB, rxStrAlts ["WITH", "USING"], rxWsP, .grp 1 rxDigits,
     rxCh 'X', .wordB],
   rxSeq [.wordB, .grp 1 rxDigits, rxCh 'X', rxWsP,
     rxStrAlts ["LONG", "SHORT", "POSITION"]]]

/-- Quote currencies of the crypto pair patterns. -/
def quoteCurrencies : List String := ["USDT", "USDC", "USD", "BUSD", "EUR", "BTC", "ETH"]

/-- Per-name crypto pattern: the name optionally followed by an attached
quote currency, both ends on word boundaries. -/
def cryptoNameRx (name : String) : Rx :=
  rxSeq [.wordB, rxStr name,
    rxOpt (rxSeq [rxWsP, .grp 1 (rxStrAlts quoteCurrencies)]), .wordB]

/-- Standalone quote-currency pattern. -/
def quoteRx : Rx :=
  rxSeq [.wordB, .grp 1 (rxStrAlts ["USDT", "USDC", "USD", "BUSD", "EUR"]), .wordB]

/-- Crypto pair patterns: spaced/slashed/hyphenated, then concatenated. -/
def cryptoPairPatterns : List Rx :=
  [rxSeq [.wordB, .grp 1 (rxStrAlts CRYPTO_TOKENS), rxWsS,
     rxOpt (.cls (fun c => c == 47 || c == 45)), rxWsS,
     .grp 2 (rxStrAlts quoteCurrencies), .wordB],
   rxSeq [.wordB, .grp 1 (rxStrAlts CRYPTO_TOKENS),
     .grp 2 (rxStrAlts quoteCurrencies), .wordB]]

/-- Known stock ticker pattern. -/
def stockRx : Rx := rxSeq [.wordB, .grp 1 (rxStrAlts STOCK_TICKERS), .wordB]

/-- Generic contextual ticker patterns, in source order. -/
def contextPatterns : List Rx :=
  [rxSeq [.wordB,
     .grp 1 (rxStrAlts ["BUY", "SELL", "LONG", "SHORT", "TRADE", "TRADING"]),
     rxWsP, .grp 2 (rxRep25 rxAZ), .wordB],
   rxSeq [.wordB, .grp 1 (rxRep25 rxAZ), rxWsP,
     rxAlts [rxStr "AT", rxCh '@', rxCh '$', rxStr "PRICE"]],
   rxSeq [.wordB, rxStr "TICKER", rxWsP, .grp 1 (rxRep25 rxAZ), .wordB]]

/-- Entry price patterns, in source order. -/
def pricePatterns : List Rx :=
  [rxSeq [rxStrAlts ["PRICE", "ENTRY", "ENTER", "AT"], rxWsP,
     rxOpt (rxSeq [rxStr "OF", rxWsP]), rxOpt (rxSeq [rxStr "IS", rxWsP]),
     rxDollarOpt, rxWsS, rxNumGrp 1],
   rxSeq [rxCh '$', rxWsS, rxNumGrp 1, rxWsS,
     rxOpt (rxStrAlts ["EACH", "PER", "ENTRY"])],
   rxSeq [rxStrAlts ["BUY", "SELL", "LONG", "SHORT"], rxWsP,
     rxOpt (rxSeq [rxStr "AT", rxWsP]), rxDollarOpt, rxWsS, rxNumGrp 1]]

/-- Keywords that disqualify an entry-price candidate when they occur in the
20 characters before it. -/
def priceExcludeBefore : Rx :=
  .cat (rxAlts [rxSeq [rxStr "STOP", rxWsS, rxStr "LOSS"], rxStr "SL",
    rxStr "TARGET", rxSeq [rxStr "TAKE", rxWsS, rxStr "PROFIT"], rxStr "TP"])
    .wordB

/-- Quantity patterns, in source order; the second rejects a following
currency word by negative lookahead. -/
def quantityPatterns : List Rx :=
  [rxSeq [.grp 1 rxDigComs, rxWsS,
     rxStrAlts ["SHARES", "CONTRACTS", "LOTS", "UNITS"]],
   rxSeq [rxStrAlts ["BUY", "SELL", "LONG", "SHORT"], rxWsP, .grp 1 rxDigComs,
     rxWsP, .nla (rxStrAlts ["USD", "USDT", "DOLLAR"])],
   rxSeq [rxStr "QUANTITY", rxWsP, rxOpt (rxSeq [rxStr "OF", rxWsP]),
     .grp 1 rxDigComs]]

/-- The alternation `USD|USDT|DOLLARS?|BUCKS`. -/
def currencyWordRx : Rx :=
  rxAlts [rxStr "USD", rxStr "USDT", .cat (rxStr "DOLLAR") (rxOpt (rxCh 'S')),
    rxStr "BUCKS"]

/-- The alternation `USD|USDT|DOLLARS?`. -/
def currencyWordRx2 : Rx :=
  rxAlts [rxStr "USD", rxStr "USDT", .cat (rxStr "DOLLAR") (rxOpt (rxCh 'S'))]

/-- Position size patterns, in source order. -/
def positionSizePatterns : List Rx :=
  [rxSeq [.grp 1 rxDigComs, rxWsS, currencyWordRx, rxWsS,
     rxOpt (rxStrAlts ["POSITION", "SIZE", "WORTH"])],
   rxSeq [rxStr "POSITION", rxWsS, rxOpt (rxStr "SIZE"), rxWsS,
     rxOpt (rxSeq [rxStr "OF", rxWsS]), .grp 1 rxDigComs, rxWsS,
     rxOpt currencyWordRx2],
   rxSeq [rxStr "SIZE", rxWsP, rxOpt (rxSeq [rxStr "OF", rxWsP]),
     .grp 1 rxDigComs, rxWsS, rxOpt currencyWordRx2]]

/-- Stop loss patterns, in source order (run on the normalized text). -/
def stopLossPatterns : List Rx :=
  [rxSeq [rxStr "STOP", rxWsS, rxStr "LOSS", rxWsS,
     rxOpt (rxAlts [rxStr "AT", rxCh '@', rxStr "IS", rxStr "OF"]), rxWsS,
     rxDollarOpt, rxWsS, rxNumGrp 1],
   rxSeq [rxStr "STOP", rxWsP, rxAlts [rxStr "AT", rxCh '@'], rxWsS,
     rxDollarOpt, rxWsS, rxNumGrp 1],
   rxSeq [rxStr "SL", rxWsS, rxOpt (rxAlts [rxStr "AT", rxCh '@', rxStr "IS"]),
     rxWsS, rxDollarOpt, rxWsS, rxNumGrp 1],
   rxSeq [rxStrAlts ["SET", "PUT"], rxWsP, rxOpt (rxSeq [rxStr "A", rxWsP]),
     rxStr "STOP", rxWsP, rxOpt (rxSeq [rxStr "AT", rxWsP]), rxDollarOpt,
     rxWsS, rxNumGrp 1]]

/-- Take profit patterns, in source order. -/
def takeProfitPatterns : List Rx :=
  [rxSeq [rxAlts [rxSeq [rxStr "TAKE", rxWsS, rxStr "PROFIT"], rxStr "TP"],
     rxWsS, rxOpt (rxAlts [rxStr "AT", rxCh '@', rxStr "IS"]), rxWsS,
     rxDollarOpt, rxWsS, rxNumGrp 1],
   rxSeq [rxStr "TARGET", rxWsS,
     rxOpt (rxAlts [rxStr "AT", rxCh '@', rxStr "IS", rxStr "OF"]), rxWsS,
     rxDollarOpt, rxWsS, rxNumGrp 1],
   rxSeq [rxStr "PROFIT", rxWsS, rxOpt (rxAlts [rxStr "AT", rxCh '@']), rxWsS,
     rxDollarOpt, rxWsS, rxNumGrp 1]]

/-- The alternation `BREAK\s*EVEN|BREAKEVEN|B\s*E`. -/
def breakEvenWordRx : Rx :=
  rxAlts [rxSeq [rxStr "BREAK", rxWsS, rxStr "EVEN"], rxStr "BREAKEVEN",
    rxSeq [rxCh 'B', rxWsS, rxCh 'E']]

/-- Break-even patterns, in source order; only the first has a capture. -/
def breakEvenPatterns : List Rx :=
  [rxSeq [breakEvenWordRx, rxWsS, rxOpt (rxAlts [rxStr "AT", rxCh '@', rxStr "IS"]),
     rxWsS, rxDollarOpt, rxWsS, rxNumGrp 1],
   rxSeq [rxStrAlts ["MOVE", "MOVED", "MOVING"], rxWsP,
     rxOpt (rxSeq [rxStr "STOP", rxWsP]), rxOpt (rxSeq [rxStr "TO", rxWsP]),
     breakEvenWordRx]]

-- Field detectors ----------------------------------------------------------

/-- First pattern of a list for which the attempt function produces a
value (the `for ... break` loops of the source). -/
def firstOf (f : Rx → Option α) : List Rx → Option α
  | [] => none
  | r :: tl =>
    match f r with
    | some v => some v
    | none => firstOf f tl

/-- Action and trade type, set together: buy cues are checked first. -/
def detectAction (s : String) : Option (String × String) :=
  if rxTest buyRx (upCodes s) then some ("buy", "long")
  else if rxTest sellRx (upCodes s) then some ("sell", "short")
  else none

/-- Exchange value capitalisation: first character kept, rest lower-cased. -/
def capitalizeJs (e : String) : String :=
  match e.data with
  | [] => ""
  | c :: tl => String.mk (c :: tl.map Char.toLower)

/-- First known exchange included in the upper-cased text. -/
def detectExchange (s : String) : Option String :=
  (EXCHANGES.find? (fun e => codesHas (upCodes s) (upCodes e))).map capitalizeJs

/-- First timeframe variant included in the upper-cased text. -/
def detectTimeframe (s : String) : Option String :=
  (TIMEFRAME_VARIANTS.find? (fun p => codesHas (upCodes s) (upCodes p.1))).map
    (fun p => p.2)

/-- First word of an indicator entry (`split(' ')[0]` of the source). -/
def firstWord (s : String) : String :=
  String.mk (s.data.takeWhile (fun c => c != ' '))

/-- Normalised indicator name: the first word of the entry, run through the
correction map. -/
def normIndicator (ind : String) : String :=
  let w := firstWord ind
  match INDICATOR_CORRECTIONS.find? (fun p => p.1 == w) with
  | some p => p.2
  | none => w

/-- Append an element unless already present (`includes`/`push` of the
source). -/
def pushNew (acc : List String) (x : String) : List String :=
  if x ∈ acc then acc else acc ++ [x]

/-- Indicator detection: every vocabulary entry that matches as a whole word
contributes its normalised name, first occurrence kept, vocabulary order. -/
def detectIndicators (s : String) : List String :=
  INDICATORS.foldl
    (fun acc ind =>
      if rxTest (indicatorRx ind) (upCodes s) then pushNew acc (normIndicator ind)
      else acc)
    []

/-- One leverage pattern attempt: parse the digits, accept in [1, 125]. -/
def leverageAttempt (codes : List Nat) (r : Rx) : Option Nat :=
  match jsExec r codes with
  | none => none
  | some (_, st) =>
    match parseIntCap (capGet st 1) with
    | some lev => if 1 ≤ lev && lev ≤ 125 then some lev else none
    | none => none

/-- Leverage: first pattern with an in-range value. -/
def detectLeverage (s : String) : Option Nat :=
  firstOf (leverageAttempt (upCodes s)) leveragePatterns

/-- Ticker tier a: spoken pair variants by plain inclusion. -/
def spokenPairTicker (s : String) : Option String :=
  (SPOKEN_PAIR_VARIANTS.find? (fun p => codesHas (upCodes s) (upCodes p.1))).map
    (fun p => p.2)

/-- Ticker tier b: crypto name, with an attached or standalone quote
currency when one is present. -/
def cryptoNameTicker (s : String) : Option String :=
  CRYPTO_NAME_TO_TICKER.foldr
    (fun entry found =>
      match jsExec (cryptoNameRx entry.1) (upCodes s) with
      | none => found
      | some (_, st) =>
        match capGet st 1 with
        | some q => some (entry.2 ++ "/" ++ strOfCodes q)
        | none =>
          match jsExec quoteRx (upCodes s) with
          | none => some entry.2
          | some (_, st2) =>
            match capGet st2 1 with
            | some q => some (entry.2 ++ "/" ++ strOfCodes q)
            | none => some entry.2)
    none

/-- Ticker tier c: symbolic crypto pair, normalised to BASE/QUOTE. -/
def cryptoPairTicker (s : String) : Option String :=
  firstOf
    (fun r =>
      match jsExec r (upCodes s) with
      | none => none
      | some (_, st) =>
        match capGet st 1, capGet st 2 with
        | some b, some q => some (strOfCodes b ++ "/" ++ strOfCodes q)
        | _, _ => none)
    cryptoPairPatterns

/-- Ticker tier d: known stock tickers. -/
def stockTicker (s : String) : Option String :=
  match jsExec stockRx (upCodes s) with
  | none => none
  | some (_, st) => (capGet st 1).map strOfCodes

/-- Ticker tier e: generic 2-5 letter candidate near a trading context
word, rejected when it is an excluded common word. -/
def genericTicker (s : String) : Option String :=
  firstOf
    (fun r =>
      match jsExec r (upCodes s) with
      | none => none
      | some (_, st) =>
        let cand :=
          match capGet st 2 with
          | some c => c
          | none => (capGet st 1).getD []
        let candS := strOfCodes cand
        if EXCLUDED_WORDS.contains candS then none else some candS)
    contextPatterns

/-- The four-tier ticker cascade: each tier runs only when every earlier
tier found nothing. -/
def detectTicker (s : String) : Option String :=
  match spokenPairTicker s with
  | some t => some t
  | none =>
    match cryptoNameTicker s with
    | some t => some t
    | none =>
      match cryptoPairTicker s with
      | some t => some t
      | none =>
        match stockTicker s with
        | some t => some t
        | none => genericTicker s

/-- One entry-price pattern attempt: the 20 characters before the match must
not contain a stop-loss/target/take-profit keyword. -/
def priceAttempt (codes : List Nat) (r : Rx) : Option Nat :=
  match jsExec r codes with
  | none => none
  | some (idx, st) =>
    let beforeText := codesSub codes (idx - 20) idx
    if rxTest priceExcludeBefore beforeText then none
    else parseNumber (capGet st 1)

/-- Entry price: first pattern whose candidate survives the exclusion
window and parses. -/
def detectPrice (s : String) : Option Nat :=
  firstOf (priceAttempt (upCodes s)) pricePatterns

/-- One quantity pattern attempt, accepted in the open interval
(0, 1000000) of share counts (here in hundredths). -/
def quantityAttempt (codes : List Nat) (r : Rx) : Option Nat :=
  match jsExec r codes with
  | none => none
  | some (_, st) =>
    match parseNumber (capGet st 1) with
    | some q => if 0 < q && q < 100000000 then some q else none
    | none => none

/-- Quantity of shares/contracts/lots. -/
def detectQuantity (s : String) : Option Nat :=
  firstOf (quantityAttempt (upCodes s)) quantityPatterns

/-- One position-size pattern attempt, accepted between 10 and 10000000
dollars (here in hundredths). -/
def positionSizeAttempt (codes : List Nat) (r : Rx) : Option Nat :=
  match jsExec r codes with
  | none => none
  | some (_, st) =>
    match parseNumber (capGet st 1) with
    | some v => if 1000 ≤ v && v ≤ 1000000000 then some v else none
    | none => none

/-- Position size in quote currency. -/
def detectPositionSize (s : String) : Option Nat :=
  firstOf (positionSizeAttempt (upCodes s)) positionSizePatterns

/-- The canonical replacement text for stop-loss mishearings. -/
def STOP_LOSS_REPL : List Nat := upCodes "STOP LOSS"

/-- Normalise the stop-loss mishearings over the whole upper-cased text:
each variant, when literally included, is replaced (as a regex, so the dots
of `S.L.` match any character) by `STOP LOSS`; later variants see the
already-rewritten text. -/
def normalizeStopLoss (codes : List Nat) : List Nat :=
  STOP_LOSS_VARIANTS.foldl
    (fun txt v =>
      if codesHas txt (upCodes v) then rxReplaceAll (rxLit v) STOP_LOSS_REPL txt
      else txt)
    codes

/-- One stop-loss pattern attempt on the normalised text. -/
def numAttempt (codes : List Nat) (r : Rx) : Option Nat :=
  match jsExec r codes with
  | none => none
  | some (_, st) => parseNumber (capGet st 1)

/-- Stop loss: normalise mishearings, then first matching pattern. -/
def detectStopLoss (s : String) : Option Nat :=
  firstOf (numAttempt (normalizeStopLoss (upCodes s))) stopLossPatterns

/-- Take profit: first matching pattern on the raw text. -/
def detectTakeProfit (s : String) : Option Nat :=
  firstOf (numAttempt (upCodes s)) takeProfitPatterns

/-- Break-even value: either an explicit price or the sentinel for
"move to break even" with no price. -/
inductive BEVal where
  | price (cents : Nat) : BEVal
  | moveTo : BEVal
deriving DecidableEq, Repr

/-- One break-even pattern attempt: a capture is parsed as a price; a
match without a capture sets the sentinel. -/
def breakEvenAttempt (codes : List Nat) (r : Rx) : Option BEVal :=
  match jsExec r codes with
  | none => none
  | some (_, st) =>
    match capGet st 1 with
    | some cap =>
      match parseNumber (some cap) with
      | some c => some (.price c)
      | none => none
    | none => some .moveTo

/-- Break-even detection. -/
def detectBreakEven (s : String) : Option BEVal :=
  firstOf (breakEvenAttempt (upCodes s)) breakEvenPatterns

-- Record assembly, validity gate, cleanup ----------------------------------

/-- The trade record as built by `extractTradeInfo` before cleanup: every
field optional, indicators a list. -/
structure Trade where
  ticker : Option String
  action : Option String
  quantity : Option Nat
  price : Option Nat
  stopLoss : Option Nat
  takeProfit : Option Nat
  positionSize : Option Nat
  exchange : Option String
  timeframe : Option String
  indicators : List String
  breakEven : Option BEVal
  leverage : Option Nat
  tradeType : Option String
deriving DecidableEq, Repr

/-- Run every detector on the text. -/
def buildTrade (s : String) : Trade where
  ticker := detectTicker s
  action := (detectAction s).map (fun p => p.1)
  quantity := detectQuantity s
  price := detectPrice s
  stopLoss := detectStopLoss s
  takeProfit := detectTakeProfit s
  positionSize := detectPositionSize s
  exchange := detectExchange s
  timeframe := detectTimeframe s
  indicators := detectIndicators s
  breakEven := detectBreakEven s
  leverage := detectLeverage s
  tradeType := (detectAction s).map (fun p => p.2)

/-- JavaScript values occurring in the returned record.  Numbers are stored
in hundredths of the JavaScript value. -/
inductive JsVal where
  | num (cents : Nat) : JsVal
  | str (s : String) : JsVal
  | arr (l : List String) : JsVal
  | boolTrue : JsVal
  | null : JsVal
deriving DecidableEq, Repr

/-- Optional number field value. -/
def optNum : Option Nat → JsVal
  | some c => .num c
  | none => .null

/-- Optional string field value. -/
def optStr : Option String → JsVal
  | some s => .str s
  | none => .null

/-- Break-even field value. -/
def beVal : Option BEVal → JsVal
  | some (.price c) => .num c
  | some .moveTo => .boolTrue
  | none => .null

/-- The record in object-literal key order, before cleanup. -/
def recordOf (t : Trade) : List (String × JsVal) :=
  [("ticker", optStr t.ticker), ("action", optStr t.action),
   ("quantity", optNum t.quantity), ("price", optNum t.price),
   ("stopLoss", optNum t.stopLoss), ("takeProfit", optNum t.takeProfit),
   ("positionSize", optNum t.positionSize), ("exchange", optStr t.exchange),
   ("timeframe", optStr t.timeframe), ("indicators", .arr t.indicators),
   ("breakEven", beVal t.breakEven),
   ("leverage", optNum (t.leverage.map (fun l => 100 * l))),
   ("tradeType", optStr t.tradeType)]

/-- Field values the cleanup deletes: null values and empty arrays. -/
def isEmptyVal (v : JsVal) : Bool := v == .null || v == .arr []

/-- The cleanup of the source: delete every null field and empty array. -/
def cleanRecord (l : List (String × JsVal)) : List (String × JsVal) :=
  l.filter (fun kv => !isEmptyVal kv.2)

/-- JavaScript truthiness of an optional string field (empty string is
falsy). -/
def jsTruthyStr : Option String → Bool
  | some v => !v.isEmpty
  | none => false

/-- JavaScript truthiness of an optional numeric field (zero is falsy). -/
def jsTruthyNum : Option Nat → Bool
  | some c => c != 0
  | none => false

/-- The validity gate of the source, a truthiness test on the seven
substantial fields. -/
def hasTradeInfo (t : Trade) : Bool :=
  jsTruthyStr t.ticker || jsTruthyStr t.action || jsTruthyNum t.price ||
  jsTruthyNum t.quantity || jsTruthyNum t.stopLoss ||
  jsTruthyNum t.takeProfit || jsTruthyNum t.positionSize

/-- `extractTradeInfo` on a string input: empty input yields null; records
failing the validity gate yield null; otherwise the cleaned sparse record. -/
def extractTradeInfo (s : String) : Option (List (String × JsVal)) :=
  if s.isEmpty then none
  else
    let t := buildTrade s
    if hasTradeInfo t then some (cleanRecord (recordOf t)) else none

/-- The JavaScript argument of `extractTradeInfo`: a string or any
non-string value (all non-strings are rejected by the same typeof guard). -/
inductive JsInput where
  | str (s : String) : JsInput
  | nullV : JsInput
  | undef : JsInput
  | boolean (b : Bool) : JsInput
  | number (cents : Nat) : JsInput
  | object : JsInput
deriving DecidableEq, Repr

/-- Is the input a string? (the `typeof text === 'string'` test). -/
def JsInput.isString : JsInput → Bool
  | .str _ => true
  | _ => false

/-- `extractTradeInfo` on an arbitrary JavaScript input. -/
def extractJs : JsInput → Option (List (String × JsVal))
  | .str s => extractTradeInfo s
  | _ => none

/-- Field lookup in a returned record (JavaScript property access;
`none` is `undefined`). -/
def getField (rec : List (String × JsVal)) (k : String) : Option JsVal :=
  match rec.find? (fun kv => kv.1 == k) with
  | some kv => some kv.2
  | none => none

-- SummaryFormatter (`formatNumber`, `generateTradeSummary`) ---------------

/-- Decimal digit character. -/
def digitChar48 (d : Nat) : Char := Char.ofNat (48 + d)

/-- Decimal digits of a natural number, most significant first (fuel
structural; the fuel argument exceeds the number of digits). -/
def digitsAux : Nat → Nat → List Char
  | 0, _ => []
  | f + 1, n =>
    if n < 10 then [digitChar48 n]
    else digitsAux f (n / 10) ++ [digitChar48 (n % 10)]

/-- JavaScript rendering of a natural number, no grouping. -/
def natStr (n : Nat) : String := String.mk (digitsAux (n + 1) n)

/-- Two-digit zero-padded rendering (the fraction of `toFixed(2)`). -/
def pad2 (m : Nat) : String := String.mk [digitChar48 (m / 10), digitChar48 (m % 10)]

/-- Three-digit zero-padded rendering (a thousands group). -/
def pad3 (m : Nat) : String :=
  String.mk [digitChar48 (m / 100), digitChar48 (m / 10 % 10), digitChar48 (m % 10)]

/-- Integer rendering with comma thousands separators, as
`toLocaleString('en-US')` renders the integer part. -/
def cgAux : Nat → Nat → String
  | 0, n => natStr n
  | f + 1, n =>
    if n < 1000 then natStr n
    else cgAux f (n / 1000) ++ "," ++ pad3 (n % 1000)

/-- Comma-grouped rendering of a natural number. -/
def commaGroup (n : Nat) : String := cgAux n n

/-- Minimal fraction rendering of a hundredths part (at most two digits,
trailing zeros dropped, nothing when zero), as `toLocaleString` with
minimum 0 and maximum 2 fraction digits. -/
def fracMin (f : Nat) : String :=
  if f == 0 then ""
  else if f % 10 == 0 then "." ++ String.mk [digitChar48 (f / 10)]
  else "." ++ String.mk [digitChar48 (f / 10), digitChar48 (f % 10)]

/-- `formatNumber` of the source on a value in hundredths: values of 1000
and above via `toLocaleString('en-US', ...)` (comma grouping, up to two
fraction digits, none forced), smaller values via `toFixed(2)` (exactly two
fraction digits, no grouping). -/
def formatNumber (c : Nat) : String :=
  if 100000 ≤ c then commaGroup (c / 100) ++ fracMin (c % 100)
  else natStr (c / 100) ++ "." ++ pad2 (c % 100)

/-- Default JavaScript rendering of a number in hundredths (template
literal interpolation): no grouping, no forced fraction digits. -/
def jsNumStr (c : Nat) : String := natStr (c / 100) ++ fracMin (c % 100)

/-- Rendering of a record value inside a template literal. -/
def jsValDisplay : JsVal → String
  | .num c => jsNumStr c
  | .str s => s
  | .arr l => String.intercalate "," l
  | .boolTrue => "true"
  | .null => "null"

/-- JavaScript truthiness of a field value (absent and null and zero and
empty string are falsy; arrays, even empty, are truthy). -/
def truthyV : Option JsVal → Bool
  | some (.num c) => c != 0
  | some (.str s) => !s.isEmpty
  | some (.arr _) => true
  | some .boolTrue => true
  | some .null => false
  | none => false

/-- Truthiness of a record field. -/
def truthyF (rec : List (String × JsVal)) (k : String) : Bool :=
  truthyV (getField rec k)

/-- Strict equality of a record field with a string literal. -/
def eqStrF (rec : List (String × JsVal)) (k v : String) : Bool :=
  match getField rec k with
  | some (.str s) => s == v
  | _ => false

/-- Interpolated rendering of a record field. -/
def displayF (rec : List (String × JsVal)) (k : String) : String :=
  match getField rec k with
  | some v => jsValDisplay v
  | none => "undefined"

/-- `formatNumber` applied to a record field (always a number in records
the extractor produces). -/
def fmtNumF (rec : List (String × JsVal)) (k : String) : String :=
  match getField rec k with
  | some (.num c) => formatNumber c
  | some v => jsValDisplay v
  | none => "undefined"

/-- The action/ticker head of the summary: trade type preferred over the
bare action for display. -/
def actionTextOf (rec : List (String × JsVal)) : String :=
  if truthyF rec "tradeType" then
    if eqStrF rec "tradeType" "long" then "Long" else "Short"
  else if eqStrF rec "action" "buy" then "Buy" else "Sell"

/-- The `extras` array of `generateTradeSummary`. -/
def extrasList (rec : List (String × JsVal)) : List String :=
  (if truthyF rec "stopLoss" then ["Stop loss: $" ++ fmtNumF rec "stopLoss"] else [])
  ++ (if truthyF rec "takeProfit" then ["Target: $" ++ fmtNumF rec "takeProfit"] else [])
  ++ (match getField rec "breakEven" with
      | some (.num c) => ["Break even: $" ++ formatNumber c]
      | some .boolTrue => ["Move to break even"]
      | some _ => []
      | none => [])
  ++ (match getField rec "indicators" with
      | some (.arr l) =>
        if l.length > 0 then ["Indicators: " ++ String.intercalate ", " l] else []
      | _ => [])

/-- The `parts` array of `generateTradeSummary`, in push order. -/
def summaryParts (rec : List (String × JsVal)) : List String :=
  (if truthyF rec "action" && truthyF rec "ticker" then
     [actionTextOf rec ++ " " ++ displayF rec "ticker"]
   else if truthyF rec "ticker" then ["Trade " ++ displayF rec "ticker"]
   else if truthyF rec "action" then
     [if eqStrF rec "action" "buy" then "Buy" else "Sell"]
   else [])
  ++ (if truthyF rec "exchange" then ["on " ++ displayF rec "exchange"] else [])
  ++ (if truthyF rec "timeframe" then ["(" ++ displayF rec "timeframe" ++ ")"] else [])
  ++ (if truthyF rec "quantity" then [displayF rec "quantity" ++ " shares"] else [])
  ++ (if truthyF rec "positionSize" then
        ["$" ++ fmtNumF rec "positionSize" ++ " position"] else [])
  ++ (if truthyF rec "leverage" then [displayF rec "leverage" ++ "x"] else [])
  ++ (if truthyF rec "price" then ["at $" ++ fmtNumF rec "price"] else [])
  ++ (if (extrasList rec).isEmpty then []
      else ["• " ++ String.intercalate " • " (extrasList rec)])

/-- `generateTradeSummary` of the source. -/
def generateTradeSummary (rec : List (String × JsVal)) : String :=
  String.intercalate " " (summaryParts rec)

-- Derived notions used by the statements ------------------------------------

/-- The names the indicator normalisation can produce, in vocabulary order
(first occurrence of each normalised name along `INDICATORS`). -/
def canonicalIndicators : List String :=
  ["RSI", "MACD", "MAC", "EMA", "SMA", "VWAP", "ATR", "BOLLINGER",
   "STOCHASTIC", "FIBONACCI", "ICHIMOKU", "ADX", "CCI", "WILLIAMS"]

/-- Position of a normalised indicator name in the vocabulary order. -/
def indicatorRank (x : String) : Nat :=
  canonicalIndicators.findIdx (fun y => y == x)

/-- Raw (case-preserving) code points of a string. -/
def rawCodes (s : String) : List Nat := s.data.map Char.toNat

/-- Case-sensitive substring containment on strings. -/
def strHas (s pat : String) : Bool := codesHasAux (rawCodes pat) (rawCodes s)

-- Helper lemmas -------------------------------------------------------------

/-- The validity gate fails exactly when every substantial field is
JavaScript-falsy. -/
theorem hasTradeInfo_eq_false_iff (s : String) :
    hasTradeInfo (buildTrade s) = false ↔
      (jsTruthyStr (detectTicker s) = false ∧
       jsTruthyStr ((detectAction s).map Prod.fst) = false ∧
       jsTruthyNum (detectPrice s) = false ∧
       jsTruthyNum (detectQuantity s) = false ∧
       jsTruthyNum (detectStopLoss s) = false ∧
       jsTruthyNum (detectTakeProfit s) = false ∧
       jsTruthyNum (detectPositionSize s) = false) := by
  simp [hasTradeInfo, buildTrade, and_assoc]

/-- On non-empty input the extractor returns null exactly when the validity
gate fails. -/
theorem extract_eq_none_iff (s : String) (hs : s.isEmpty = false) :
    extractTradeInfo s = none ↔ hasTradeInfo (buildTrade s) = false := by
  unfold extractTradeInfo
  rw [hs]
  cases h : hasTradeInfo (buildTrade s) <;> simp [h]

-- Claim theorems ------------------------------------------------------------

/-- C1: on the exact end-to-end utterance, the extractor returns precisely
the record with ticker BTC/USDT, action buy, trade type long, position size
500, stop loss 86000 and take profit 94000 (values in hundredths here), and
no other field: the comma-grouped 86,000 parses to 86000 and neither price
nor quantity is set. -/
theorem c1_end_to_end :
    extractTradeInfo "Open Long BTC USDT, Mean Reversion Trade, 500 USD, stop loss at 86,000, take profit at 94,000 USD." =
      some [("ticker", JsVal.str "BTC/USDT"), ("action", JsVal.str "buy"),
        ("stopLoss", JsVal.num 8600000), ("takeProfit", JsVal.num 9400000),
        ("positionSize", JsVal.num 50000), ("tradeType", JsVal.str "long")] := by
  decide

/-- C2: every non-string input and the empty string yield null, and on every
input the extractor terminates with an ordinary value (it is a total
function into an option type, so no run ever raises; absence is the only
failure signal). -/
theorem c2_input_guard :
    (∀ x : JsInput, x.isString = false → extractJs x = none) ∧
    extractJs (.str "") = none ∧
    (∀ x : JsInput, extractJs x = none ∨ ∃ r, extractJs x = some r) := by
  refine ⟨?_, rfl, ?_⟩
  · intro x hx
    cases x <;> simp_all [extractJs, JsInput.isString]
  · intro x
    cases h : extractJs x
    · exact Or.inl rfl
    · exact Or.inr ⟨_, rfl⟩

/-- Witness for C2 at the concrete non-string input null and at the empty
string. -/
theorem c2_input_guard_witness :
    extractJs JsInput.nullV = none ∧ extractJs (.str "") = none :=
  ⟨c2_input_guard.1 JsInput.nullV rfl, c2_input_guard.2.1⟩

/-- C3: on "Buy AAPL stop loss at 140 dollars-sign" the price field is
absent and the stop loss is 140: the first price pattern matches at index
19 and the second at index 22, but both 20-character windows before those
indices contain the stop-loss keyword, so both candidates are rejected
(third pattern: no match), the price detector yields nothing, and the 140
is claimed by the stop-loss detector alone. -/
theorem c3_price_exclusion :
    extractTradeInfo "Buy AAPL stop loss at $140" =
      some [("ticker", JsVal.str "AAPL"), ("action", JsVal.str "buy"),
        ("stopLoss", JsVal.num 14000), ("tradeType", JsVal.str "long")] ∧
    getField [("ticker", JsVal.str "AAPL"), ("action", JsVal.str "buy"),
        ("stopLoss", JsVal.num 14000), ("tradeType", JsVal.str "long")] "price" = none ∧
    pricePatterns.map
        (fun r => (jsExec r (upCodes "Buy AAPL stop loss at $140")).map Prod.fst) =
      [some 19, some 22, none] ∧
    rxTest priceExcludeBefore (codesSub (upCodes "Buy AAPL stop loss at $140") 0 19) = true ∧
    rxTest priceExcludeBefore (codesSub (upCodes "Buy AAPL stop loss at $140") 2 22) = true ∧
    detectPrice "Buy AAPL stop loss at $140" = none := by
  refine ⟨by decide, by decide, by decide, by decide, by decide, by decide⟩

/-- C4: the mishearing "Stopplers" is rewritten to the canonical phrase
over the whole upper-cased text before the stop-loss patterns run, and the
extracted record carries stop loss 92000 (the entry-price detector also
claims the same number, which the claim does not exclude). -/
theorem c4_stopplers :
    normalizeStopLoss (upCodes "Stopplers at 92000") = upCodes "STOP LOSS AT 92000" ∧
    extractTradeInfo "Stopplers at 92000" =
      some [("price", JsVal.num 9200000), ("stopLoss", JsVal.num 9200000)] ∧
    getField [("price", JsVal.num 9200000), ("stopLoss", JsVal.num 9200000)] "stopLoss" =
      some (JsVal.num 9200000) := by
  refine ⟨by decide, by decide, by decide⟩

/-- C5 counterexample: the claim "extract returns null exactly when none of
the seven fields was detected" fails in the null-implies-none-detected
direction: on "price is 0" the price pattern matches and parses the value
0, yet the extractor returns null, because the validity gate tests
JavaScript truthiness and 0 is falsy. -/
theorem c5_counterexample :
    detectPrice "price is 0" = some 0 ∧ extractTradeInfo "price is 0" = none := by
  refine ⟨by decide, by decide⟩

/-- C5 as amended: on non-empty input the extractor returns null exactly
when none of the seven substantial fields holds a JavaScript-truthy value
(for the numeric fields: a non-zero value); detecting only an exchange,
timeframe, indicator, leverage or break-even is insufficient since none of
those fields enters the gate, and in particular "The weather is nice"
yields null. -/
theorem c5_gate :
    (∀ s : String, s.isEmpty = false →
      (extractTradeInfo s = none ↔
        (jsTruthyStr (detectTicker s) = false ∧
         jsTruthyStr ((detectAction s).map Prod.fst) = false ∧
         jsTruthyNum (detectPrice s) = false ∧
         jsTruthyNum (detectQuantity s) = false ∧
         jsTruthyNum (detectStopLoss s) = false ∧
         jsTruthyNum (detectTakeProfit s) = false ∧
         jsTruthyNum (detectPositionSize s) = false))) ∧
    extractTradeInfo "The weather is nice" = none := by
  constructor
  · intro s hs
    rw [extract_eq_none_iff s hs, hasTradeInfo_eq_false_iff s]
  · decide

/-- Witness for C5 as amended, applied at the concrete non-empty input
"nothing here" with every gate field falsy. -/
theorem c5_gate_witness : extractTradeInfo "nothing here" = none :=
  (c5_gate.1 "nothing here" rfl).mpr (by decide)

/-- C7: both crypto inputs canonicalise to BASE/QUOTE form, the first
through the symbolic concatenated pair tier, the second through the spoken
pair tier; and in the cascade a result of an earlier tier is always the
final ticker (later tiers run only when every earlier tier found
nothing). -/
theorem c7_ticker_cascade :
    (extractTradeInfo "Long ETHUSDT").map (fun r => getField r "ticker") =
      some (some (JsVal.str "ETH/USDT")) ∧
    (extractTradeInfo "Open Long BTC USDT").map (fun r => getField r "ticker") =
      some (some (JsVal.str "BTC/USDT")) ∧
    (∀ s t, spokenPairTicker s = some t → detectTicker s = some t) ∧
    (∀ s t, spokenPairTicker s = none → cryptoNameTicker s = some t →
      detectTicker s = some t) ∧
    (∀ s t, spokenPairTicker s = none → cryptoNameTicker s = none →
      cryptoPairTicker s = some t → detectTicker s = some t) := by
  refine ⟨by decide, by decide, ?_, ?_, ?_⟩
  · intro s t h
    unfold detectTicker
    rw [h]
  · intro s t h1 h2
    unfold detectTicker
    rw [h1, h2]
  · intro s t h1 h2 h3
    unfold detectTicker
    rw [h1, h2, h3]

/-- Witness for C7 at the spoken-pair input. -/
theorem c7_ticker_cascade_witness :
    detectTicker "Open Long BTC USDT" = some "BTC/USDT" :=
  c7_ticker_cascade.2.2.1 "Open Long BTC USDT" "BTC/USDT" (by decide)

/-- C8: every record the extractor returns is maximally sparse: no field
value is null and no field value is an empty array, since the cleanup
filters exactly those out before the record is returned. -/
theorem c8_sparse_invariant (s : String) (rec : List (String × JsVal))
    (h : extractTradeInfo s = some rec) :
    ∀ kv ∈ rec, kv.2 ≠ JsVal.null ∧ kv.2 ≠ JsVal.arr [] := by
  intro kv hkv
  simp only [extractTradeInfo] at h
  split at h
  · exact absurd h (by simp)
  · split at h
    · rw [Option.some_inj] at h
      subst h
      have hp := (List.mem_filter.mp hkv).2
      simp only [isEmptyVal, Bool.not_eq_true', Bool.or_eq_false_iff,
        beq_eq_false_iff_ne, ne_eq] at hp
      exact ⟨hp.1, hp.2⟩
    · exact absurd h (by simp)

/-- Witness for C8 at the record extracted from "Buy AAPL" and its ticker
field. -/
theorem c8_sparse_invariant_witness :
    JsVal.str "AAPL" ≠ JsVal.null ∧ JsVal.str "AAPL" ≠ JsVal.arr [] :=
  c8_sparse_invariant "Buy AAPL"
    [("ticker", JsVal.str "AAPL"), ("action", JsVal.str "buy"),
      ("tradeType", JsVal.str "long")]
    (by decide) ("ticker", JsVal.str "AAPL") (by decide)

/-- C10: a detected value of exactly 0 never satisfies the validity gate:
if on a non-empty input every substantial field other than the price is
undetected and the price detector returns exactly 0, the extractor returns
null even though a qualifying pattern matched; concretely this happens on
"price is 0". -/
theorem c10_zero_is_falsy :
    (∀ s : String, s.isEmpty = false →
      detectTicker s = none →
      detectAction s = none →
      detectPrice s = some 0 →
      detectQuantity s = none →
      detectStopLoss s = none →
      detectTakeProfit s = none →
      detectPositionSize s = none →
      extractTradeInfo s = none) ∧
    detectPrice "price is 0" = some 0 ∧
    extractTradeInfo "price is 0" = none := by
  refine ⟨?_, by decide, by decide⟩
  intro s hs h1 h2 h3 h4 h5 h6 h7
  rw [extract_eq_none_iff s hs, hasTradeInfo_eq_false_iff s]
  simp [h1, h2, h3, h4, h5, h6, h7, jsTruthyStr, jsTruthyNum]

/-- Witness for C10 applied at "price is 0". -/
theorem c10_zero_is_falsy_witness : extractTradeInfo "price is 0" = none :=
  c10_zero_is_falsy.1 "price is 0" rfl (by decide) (by decide) (by decide)
    (by decide) (by decide) (by decide) (by decide)

/-- The rank function is injective on the canonical names. -/
theorem indicatorRank_inj :
    ∀ x ∈ canonicalIndicators, ∀ y ∈ canonicalIndicators,
      indicatorRank x = indicatorRank y → x = y := by
  decide

/-- Invariant of the indicator accumulation loop: starting from a
well-formed accumulator and scanning vocabulary entries whose normalised
names come in non-decreasing rank order and never rank below the
accumulator, the push-if-absent fold keeps the accumulator duplicate-free,
canonical, and strictly rank-sorted. -/
theorem indFold_props (b : String → Bool) (n : String → String) :
    ∀ (voc acc : List String),
      acc.Nodup →
      (∀ x ∈ acc, x ∈ canonicalIndicators) →
      (∀ i ∈ voc, n i ∈ canonicalIndicators) →
      acc.Pairwise (fun x y => indicatorRank x < indicatorRank y) →
      (∀ x ∈ acc, ∀ i ∈ voc, indicatorRank x ≤ indicatorRank (n i)) →
      voc.Pairwise (fun i j => indicatorRank (n i) ≤ indicatorRank (n j)) →
      ((voc.foldl (fun a i => if b i then pushNew a (n i) else a) acc).Nodup ∧
       (∀ x ∈ voc.foldl (fun a i => if b i then pushNew a (n i) else a) acc,
          x ∈ canonicalIndicators) ∧
       (voc.foldl (fun a i => if b i then pushNew a (n i) else a) acc).Pairwise
          (fun x y => indicatorRank x < indicatorRank y)) := by
  intro voc
  induction voc with
  | nil =>
    intro acc hnd hmem _ hpw _ _
    exact ⟨hnd, hmem, hpw⟩
  | cons i tl ih =>
    intro acc hnd hmem hvoc hpw hle hvpw
    rw [List.pairwise_cons] at hvpw
    obtain ⟨hhead, htlpw⟩ := hvpw
    have hi : n i ∈ canonicalIndicators := hvoc i (List.mem_cons_self i tl)
    have htl : ∀ j ∈ tl, n j ∈ canonicalIndicators := fun j hj =>
      hvoc j (List.mem_cons_of_mem i hj)
    rw [List.foldl_cons]
    cases hb : b i
    · simp only [Bool.false_eq_true, if_false]
      exact ih acc hnd hmem htl hpw
        (fun x hx j hj => hle x hx j (List.mem_cons_of_mem i hj)) htlpw
    · simp only [if_true]
      by_cases hx : n i ∈ acc
      · rw [show pushNew acc (n i) = acc from by simp [pushNew, hx]]
        exact ih acc hnd hmem htl hpw
          (fun x hxx j hj => hle x hxx j (List.mem_cons_of_mem i hj)) htlpw
      · rw [show pushNew acc (n i) = acc ++ [n i] from by simp [pushNew, hx]]
        have hnd' : (acc ++ [n i]).Nodup := by
          rw [List.nodup_append]
          exact ⟨hnd, List.nodup_singleton _,
            fun x hxa hxs => hx ((List.mem_singleton.mp hxs) ▸ hxa)⟩
        have hmem' : ∀ x ∈ acc ++ [n i], x ∈ canonicalIndicators := by
          intro x hxm
          rcases List.mem_append.mp hxm with hxa | hxs
          · exact hmem x hxa
          · exact (List.mem_singleton.mp hxs) ▸ hi
        have hpw' : (acc ++ [n i]).Pairwise
            (fun x y => indicatorRank x < indicatorRank y) := by
          rw [List.pairwise_append]
          refine ⟨hpw, List.pairwise_singleton _ _, ?_⟩
          intro x hxa y hys
          rw [List.mem_singleton.mp hys]
          have hle1 : indicatorRank x ≤ indicatorRank (n i) :=
            hle x hxa i (List.mem_cons_self i tl)
          rcases Nat.lt_or_ge (indicatorRank x) (indicatorRank (n i)) with hlt | hge
          · exact hlt
          · exfalso
            have hxe : x = n i :=
              indicatorRank_inj x (hmem x hxa) (n i) hi (Nat.le_antisymm hle1 hge)
            exact hx (hxe ▸ hxa)
        have hle' : ∀ x ∈ acc ++ [n i], ∀ j ∈ tl,
            indicatorRank x ≤ indicatorRank (n j) := by
          intro x hxm j hj
          rcases List.mem_append.mp hxm with hxa | hxs
          · exact hle x hxa j (List.mem_cons_of_mem i hj)
          · exact (List.mem_singleton.mp hxs) ▸ hhead j hj
        exact ih (acc ++ [n i]) hnd' hmem' htl hpw' hle' htlpw

/-- The indicator detector always yields a duplicate-free, canonical,
vocabulary-ordered list. -/
theorem detectIndicators_props (s : String) :
    (detectIndicators s).Nodup ∧
    (∀ x ∈ detectIndicators s, x ∈ canonicalIndicators) ∧
    (detectIndicators s).Pairwise (fun x y => indicatorRank x < indicatorRank y) :=
  indFold_props (fun ind => rxTest (indicatorRx ind) (upCodes s)) normIndicator
    INDICATORS []
    (List.nodup_nil) (by simp) (by decide) (List.Pairwise.nil) (by simp) (by decide)

/-- C6 counterexample: on "EMA MAC D buy" the indicators field is the list
MAC, EMA although EMA is mentioned first in the text (the loop follows the
fixed vocabulary order, not the order of first mention) and although MAC is
not a canonical indicator name (only the first word of the vocabulary entry
"MAC D" is looked up in the correction map, so its correction entry is
never applied). -/
theorem c6_counterexample :
    extractTradeInfo "EMA MAC D buy" =
      some [("action", JsVal.str "buy"),
        ("indicators", JsVal.arr ["MAC", "EMA"]),
        ("tradeType", JsVal.str "long")] ∧
    detectIndicators "EMA MAC D buy" = ["MAC", "EMA"] := by
  refine ⟨by decide, by decide⟩

/-- C6 as amended: the indicators list always consists of normalised names
(one of the fourteen values the normalisation can produce; a text
containing MHCD contributes MACD and never MHCD, while the multi-word
variant MAC D contributes MAC because only its first word is looked up in
the correction map), contains no duplicates, and is ordered by the fixed
indicator vocabulary order rather than by first mention in the text. -/
theorem c6_indicators_normalised :
    (∀ s : String, (detectIndicators s).Nodup ∧
      (∀ x ∈ detectIndicators s, x ∈ canonicalIndicators) ∧
      (detectIndicators s).Pairwise
        (fun x y => indicatorRank x < indicatorRank y)) ∧
    detectIndicators "Buy the MHCD crossover" = ["MACD"] ∧
    "MHCD" ∉ canonicalIndicators ∧
    normIndicator "MHCD" = "MACD" ∧ normIndicator "MAC D" = "MAC" := by
  exact ⟨detectIndicators_props, by decide, by decide, by decide, by decide⟩

/-- Witness for C6 as amended: the canonicality part applied to the member
MACD of the list detected on a concrete MHCD text. -/
theorem c6_indicators_normalised_witness : "MACD" ∈ canonicalIndicators :=
  (c6_indicators_normalised.1 "MHCD crossover buy").2.1 "MACD" (by decide)

/-- String append concatenates the character data. -/
theorem str_data_append (a b : String) : (a ++ b).data = a.data ++ b.data := rfl

/-- Characters produced by the digit expansion are decimal digit
characters. -/
theorem digitsAux_mem : ∀ (f n : Nat) (ch : Char), ch ∈ digitsAux f n →
    ∃ d, d < 10 ∧ ch = digitChar48 d := by
  intro f
  induction f with
  | zero =>
    intro n ch h
    exact absurd h (by simp [digitsAux])
  | succ f ih =>
    intro n ch h
    rw [digitsAux] at h
    by_cases hn : n < 10
    · rw [if_pos hn, List.mem_singleton] at h
      exact ⟨n, hn, h⟩
    · rw [if_neg hn] at h
      rcases List.mem_append.mp h with h1 | h1
      · exact ih (n / 10) ch h1
      · rw [List.mem_singleton] at h1
        exact ⟨n % 10, Nat.mod_lt n (by omega), h1⟩

/-- A decimal digit character is not a dot. -/
theorem digitChar48_ne_dot : ∀ d, d < 10 → digitChar48 d ≠ '.' := by decide

/-- A decimal digit character is not a comma. -/
theorem digitChar48_ne_comma : ∀ d, d < 10 → digitChar48 d ≠ ',' := by decide

/-- The plain rendering of a natural number contains no dot. -/
theorem natStr_no_dot (n : Nat) : '.' ∉ (natStr n).data := by
  intro h
  obtain ⟨d, hd, he⟩ := digitsAux_mem (n + 1) n '.' h
  exact digitChar48_ne_dot d hd he.symm

/-- The plain rendering of a natural number contains no comma. -/
theorem natStr_no_comma (n : Nat) : ',' ∉ (natStr n).data := by
  intro h
  obtain ⟨d, hd, he⟩ := digitsAux_mem (n + 1) n ',' h
  exact digitChar48_ne_comma d hd he.symm

/-- The comma-grouped rendering contains no dot. -/
theorem cgAux_no_dot : ∀ f n, '.' ∉ (cgAux f n).data := by
  intro f
  induction f with
  | zero =>
    intro n h
    exact natStr_no_dot n (by simpa [cgAux] using h)
  | succ f ih =>
    intro n h
    rw [cgAux] at h
    by_cases hn : n < 1000
    · rw [if_pos hn] at h
      exact natStr_no_dot n h
    · rw [if_neg hn, str_data_append, str_data_append] at h
      rcases List.mem_append.mp h with h1 | h1
      · rcases List.mem_append.mp h1 with h2 | h2
        · exact ih (n / 1000) h2
        · simp at h2
      · have hm : n % 1000 < 1000 := Nat.mod_lt n (by omega)
        simp [pad3] at h1
        rcases h1 with h2 | h2 | h2
        · exact digitChar48_ne_dot _ (by omega) h2.symm
        · exact digitChar48_ne_dot _ (by omega) h2.symm
        · exact digitChar48_ne_dot _ (by omega) h2.symm

/-- Integers of 1000 and above render with at least one comma separator. -/
theorem cgAux_comma : ∀ f n, 1000 ≤ n → 1 ≤ f → ',' ∈ (cgAux f n).data := by
  intro f n hn hf
  cases f with
  | zero => omega
  | succ f =>
    rw [cgAux, if_neg (by omega), str_data_append, str_data_append]
    apply List.mem_append_left
    apply List.mem_append_right
    decide

/-- The minimal fraction rendering of a hundredths part contains no
comma. -/
theorem fracMin_no_comma (f : Nat) (h : f < 100) : ',' ∉ (fracMin f).data := by
  intro hc
  rw [fracMin] at hc
  split at hc
  · simp at hc
  · split at hc
    · rw [str_data_append] at hc
      rcases List.mem_append.mp hc with h1 | h1
      · simp at h1
      · simp at h1
        exact digitChar48_ne_comma _ (by omega) h1.symm
    · rw [str_data_append] at hc
      rcases List.mem_append.mp hc with h1 | h1
      · simp at h1
      · simp at h1
        rcases h1 with h2 | h2
        · exact digitChar48_ne_comma _ (by omega) h2.symm
        · exact digitChar48_ne_comma _ (by omega) h2.symm

/-- Values below 1000 are formatted with a decimal point and exactly two
digits after the final decimal point. -/
theorem formatNumber_small (c : Nat) (h : c < 100000) :
    '.' ∈ (formatNumber c).data ∧
    ((formatNumber c).data.reverse.takeWhile (fun x => x != '.')).length = 2 := by
  have hd : (formatNumber c).data =
      ((natStr (c / 100)).data ++ ['.']) ++
        [digitChar48 (c % 100 / 10), digitChar48 (c % 100 % 10)] := by
    rw [formatNumber, if_neg (by omega), str_data_append, str_data_append]
    rfl
  have h1 : (digitChar48 (c % 100 / 10) != '.') = true := by
    rw [bne_iff_ne]
    exact digitChar48_ne_dot _ (by omega)
  have h2 : (digitChar48 (c % 100 % 10) != '.') = true := by
    rw [bne_iff_ne]
    exact digitChar48_ne_dot _ (by omega)
  constructor
  · rw [hd]
    simp
  · rw [hd]
    simp [List.takeWhile_cons, h1, h2]

/-- Values of 1000 and above are formatted with a comma thousands
separator, and with no decimal point at all when the value is whole. -/
theorem formatNumber_large (c : Nat) (h : 100000 ≤ c) :
    ',' ∈ (formatNumber c).data ∧
    (c % 100 = 0 → '.' ∉ (formatNumber c).data) := by
  have hform : formatNumber c = commaGroup (c / 100) ++ fracMin (c % 100) := by
    rw [formatNumber, if_pos h]
  constructor
  · rw [hform, str_data_append]
    apply List.mem_append_left
    exact cgAux_comma (c / 100) (c / 100) (by omega) (by omega)
  · intro h0
    rw [hform, h0, show fracMin 0 = "" from rfl, str_data_append]
    simpa using cgAux_no_dot (c / 100) (c / 100)

/-- The default interpolation rendering never contains a comma separator. -/
theorem jsNumStr_no_comma (c : Nat) : ',' ∉ (jsNumStr c).data := by
  intro hc
  rw [jsNumStr, str_data_append] at hc
  rcases List.mem_append.mp hc with h1 | h1
  · exact natStr_no_comma _ h1
  · exact fracMin_no_comma (c % 100) (Nat.mod_lt c (by omega)) h1

/-- C9 counterexample: the record extracted from "Buy 5000 shares of AAPL"
has quantity 5000, a numeric value of the record, yet its summary renders
that quantity as the bare interpolation "5000 shares" with no thousands
separator (while the entry price, which flows through the formatter, is
rendered "5,000"), so not every numeric value of the record is rendered
with thousands separators. -/
theorem c9_counterexample :
    extractTradeInfo "Buy 5000 shares of AAPL" =
      some [("ticker", JsVal.str "AAPL"), ("action", JsVal.str "buy"),
        ("quantity", JsVal.num 500000), ("price", JsVal.num 500000),
        ("tradeType", JsVal.str "long")] ∧
    generateTradeSummary [("ticker", JsVal.str "AAPL"), ("action", JsVal.str "buy"),
        ("quantity", JsVal.num 500000), ("price", JsVal.num 500000),
        ("tradeType", JsVal.str "long")] = "Long AAPL 5000 shares at $5,000" ∧
    strHas "Long AAPL 5000 shares at $5,000" "5000 shares" = true ∧
    strHas "Long AAPL 5000 shares at $5,000" "5,000 shares" = false := by
  refine ⟨by decide, by decide, by decide, by decide⟩

/-- C9 as amended: price, position size, stop loss, take profit and numeric
break-even are rendered through the number formatter, which renders values
below 1000 with a decimal point and exactly two digits after it and values
of 1000 and above with comma thousands separators and no forced decimals
(no decimal point at all for whole values); quantity and leverage are
interpolated directly with the default rendering, which never inserts a
thousands separator. -/
theorem c9_number_rendering :
    (∀ rec c, getField rec "price" = some (JsVal.num c) → c ≠ 0 →
        ("at $" ++ formatNumber c) ∈ summaryParts rec) ∧
    (∀ rec c, getField rec "positionSize" = some (JsVal.num c) → c ≠ 0 →
        ("$" ++ formatNumber c ++ " position") ∈ summaryParts rec) ∧
    (∀ rec c, getField rec "stopLoss" = some (JsVal.num c) → c ≠ 0 →
        ("Stop loss: $" ++ formatNumber c) ∈ extrasList rec) ∧
    (∀ rec c, getField rec "takeProfit" = some (JsVal.num c) → c ≠ 0 →
        ("Target: $" ++ formatNumber c) ∈ extrasList rec) ∧
    (∀ rec c, getField rec "breakEven" = some (JsVal.num c) →
        ("Break even: $" ++ formatNumber c) ∈ extrasList rec) ∧
    (∀ rec c, getField rec "quantity" = some (JsVal.num c) → c ≠ 0 →
        (jsNumStr c ++ " shares") ∈ summaryParts rec) ∧
    (∀ rec c, getField rec "leverage" = some (JsVal.num c) → c ≠ 0 →
        (jsNumStr c ++ "x") ∈ summaryParts rec) ∧
    (∀ c, c < 100000 → '.' ∈ (formatNumber c).data ∧
        ((formatNumber c).data.reverse.takeWhile (fun x => x != '.')).length = 2) ∧
    (∀ c, 100000 ≤ c → ',' ∈ (formatNumber c).data ∧
        (c % 100 = 0 → '.' ∉ (formatNumber c).data)) ∧
    (∀ c, ',' ∉ (jsNumStr c).data) := by
  refine ⟨?_, ?_, ?_, ?_, ?_, ?_, ?_, formatNumber_small, formatNumber_large,
    jsNumStr_no_comma⟩
  · intro rec c h hc
    have ht : truthyF rec "price" = true := by simp [truthyF, h, truthyV, hc]
    have hf : fmtNumF rec "price" = formatNumber c := by simp [fmtNumF, h]
    simp [summaryParts, ht, hf]
  · intro rec c h hc
    have ht : truthyF rec "positionSize" = true := by simp [truthyF, h, truthyV, hc]
    have hf : fmtNumF rec "positionSize" = formatNumber c := by simp [fmtNumF, h]
    simp [summaryParts, ht, hf]
  · intro rec c h hc
    have ht : truthyF rec "stopLoss" = true := by simp [truthyF, h, truthyV, hc]
    have hf : fmtNumF rec "stopLoss" = formatNumber c := by simp [fmtNumF, h]
    simp [extrasList, ht, hf]
  · intro rec c h hc
    have ht : truthyF rec "takeProfit" = true := by simp [truthyF, h, truthyV, hc]
    have hf : fmtNumF rec "takeProfit" = formatNumber c := by simp [fmtNumF, h]
    simp [extrasList, ht, hf]
  · intro rec c h
    simp [extrasList, h]
  · intro rec c h hc
    have ht : truthyF rec "quantity" = true := by simp [truthyF, h, truthyV, hc]
    have hdisp : displayF rec "quantity" = jsNumStr c := by
      simp [displayF, h, jsValDisplay]
    simp [summaryParts, ht, hdisp]
  · intro rec c h hc
    have ht : truthyF rec "leverage" = true := by simp [truthyF, h, truthyV, hc]
    have hdisp : displayF rec "leverage" = jsNumStr c := by
      simp [displayF, h, jsValDisplay]
    simp [summaryParts, ht, hdisp]

/-- Witness for C9 as amended, applied at a one-field record holding the
price 150. -/
theorem c9_number_rendering_witness :
    ("at $" ++ formatNumber 15000) ∈ summaryParts [("price", JsVal.num 15000)] :=
  c9_number_rendering.1 [("price", JsVal.num 15000)] 15000 (by decide) (by decide)
